import Mathlib

/-!
Verification development for the self-healing scraper fleet.

The Python sources under src/ are shallowly embedded below.  Pure string
manipulation (substring tests, str.replace, the small regular expressions of
auto_fix_rules.py) is implemented directly on lists of characters with the
same semantics as the Python library calls.  External effects (the file
system, subprocess runs, the evidence store, vision and telemetry clients)
are threaded explicitly: the file system is an association list from path to
content, and every run of an external collaborator is a parameter of the
embedded function.  Floating point literals that only ever participate in
order comparisons (0.5, 0.7, 1.5, confidence priors) are embedded as exact
rationals, and confidences are scaled by 100 to naturals.
-/

namespace NycScraper

/-- Python list-of-chars prefix test, mirroring str.startswith on a slice. -/
def startsWithL : List Char → List Char → Bool
  | [], _ => true
  | _ :: _, [] => false
  | a :: as, b :: bs => a == b && startsWithL as bs

/-- Python substring containment (the in operator on str). -/
def containsL (pat : List Char) : List Char → Bool
  | [] => startsWithL pat []
  | c :: cs => startsWithL pat (c :: cs) || containsL pat cs

/-- Python substring containment on String: pat in s. -/
def strContains (s pat : String) : Bool :=
  containsL pat.data s.data

/-- The scan of str.replace(old, new), structurally recursive on a fuel
that starts at the length of the text: every step consumes at least one
character, so the fuel never runs out before the text does. -/
def replaceAllAux (o n : List Char) : Nat → List Char → List Char
  | 0, l => l
  | _ + 1, [] => []
  | fuel + 1, c :: cs =>
    if !o.isEmpty && startsWithL o (c :: cs) then
      n ++ replaceAllAux o n fuel (cs.drop (o.length - 1))
    else
      c :: replaceAllAux o n fuel cs

/-- Python str.replace(old, new): replace every non-overlapping occurrence,
scanning left to right. -/
def replaceAllL (o n l : List Char) : List Char :=
  replaceAllAux o n l.length l

/-- Python str.replace(old, new, 1): replace only the leftmost occurrence. -/
def replaceFirstL (o n : List Char) : List Char → List Char
  | [] => []
  | c :: cs =>
    if !o.isEmpty && startsWithL o (c :: cs) then
      n ++ cs.drop (o.length - 1)
    else
      c :: replaceFirstL o n cs

/-- String wrapper for str.replace(old, new). -/
def strReplaceAll (s o n : String) : String :=
  String.mk (replaceAllL o.data n.data s.data)

/-- String wrapper for str.replace(old, new, 1). -/
def strReplaceFirst (s o n : String) : String :=
  String.mk (replaceFirstL o.data n.data s.data)

/-- Python str.lower restricted to the ASCII casing the scanned markers use. -/
def strLower (s : String) : String :=
  String.mk (s.data.map Char.toLower)

/-- The characters matched by the regex class backslash-s in Python. -/
def isPySpace (c : Char) : Bool :=
  c == ' ' || c == '\t' || c == '\n' || c == '\r' || c == '\x0b' || c == '\x0c'

/-- int() on a run of decimal digit characters. -/
def digitsToNat (l : List Char) : Nat :=
  l.foldl (fun a c => a * 10 + (c.toNat - 48)) 0

/-- The file system: an association list from path to file content.  The
head of the list wins on lookup, and a write puts the fresh content in
front while dropping stale entries for the same path. -/
abbrev FS := List (String × String)

/-- Path.read_text, or None when the file does not exist. -/
def fsLookup : FS → String → Option String
  | [], _ => none
  | (q, c) :: fs, p => if q = p then some c else fsLookup fs p

/-- Path.write_text: overwrite (or create) the file at the given path. -/
def fsWrite (fs : FS) (p c : String) : FS :=
  (p, c) :: (fs : List (String × String)).filter (fun e => e.1 != p)

/-! auto_fix_rules.py -/

/-- The extract call the year fix anchors its variable insertion on; the
regex only escapes the parenthesis, so it is a literal search. -/
def extractCallLit : String := "const result = await extractEventsFromPage("

/-- The dynamic-year declaration inserted in front of the extract call. -/
def yearVarDecl : String := "const currentYear = new Date().getFullYear();"

/-- The literal rewrite pairs of fix_year_in_instruction, built for the
current year cy (old_year is cy - 1). -/
def yearPatterns (cy : Nat) : List (String × String) :=
  [ ("'Wednesday, October 29, " ++ Nat.repr (cy - 1) ++ "'",
     "'Wednesday, October 29, $\x7b" ++ Nat.repr cy ++ "\x7d'"),
    ("the current year " ++ Nat.repr (cy - 1),
     "the current year $\x7bcurrentYear\x7d"),
    ("add the year " ++ Nat.repr (cy - 1),
     "add the year $\x7bcurrentYear\x7d"),
    ("adding the current year " ++ Nat.repr (cy - 1),
     "adding the current year $\x7bcurrentYear\x7d") ]

/-- The patterns loop of fix_year_in_instruction: each pair is applied to
every occurrence when present. -/
def applyYearPatterns (cy : Nat) (content : String) : String :=
  (yearPatterns cy).foldl
    (fun c pr => if strContains c pr.1 then strReplaceAll c pr.1 pr.2 else c)
    content

/-- fix_year_in_instruction: replace hard-coded prior years in extraction
instructions, inserting the dynamic-year declaration before the extract
call when changes were made; guarded by the getFullYear() check. -/
def fixYearInInstruction (cy : Nat) (fs : FS) (scraperPath : String) : FS × Bool :=
  match fsLookup fs scraperPath with
  | none => (fs, false)
  | some content =>
    if strContains content "getFullYear()" then (fs, false)
    else
      let c1 := applyYearPatterns cy content
      let c2 :=
        if c1 ≠ content ∧ strContains c1 yearVarDecl = false then
          if strContains c1 extractCallLit then
            strReplaceAll c1 extractCallLit (yearVarDecl ++ "\n    " ++ extractCallLit)
          else c1
        else c1
      if c2 ≠ content then (fsWrite fs scraperPath c2, true) else (fs, false)

/-- Leftmost match of the regex name + spaces + colon-or-equals + spaces +
digits used by increase_pagination_clicks.  Returns the full matched text
and the digit group.  The space runs and the digit run are maximal, as the
greedy regex quantifiers make them. -/
def matchNumAt (name : List Char) (l : List Char) : Option (List Char × List Char) :=
  if startsWithL name l then
    let rest := l.drop name.length
    let sp1 := rest.takeWhile isPySpace
    match rest.dropWhile isPySpace with
    | [] => none
    | sep :: rest2 =>
      if sep == ':' || sep == '=' then
        let sp2 := rest2.takeWhile isPySpace
        let digits := (rest2.dropWhile isPySpace).takeWhile Char.isDigit
        if digits.isEmpty then none
        else some (name ++ sp1 ++ [sep] ++ sp2 ++ digits, digits)
      else none
  else none

/-- re.search for the numeric-limit pattern: try every start position from
the left and keep the first hit. -/
def searchNum (name : List Char) : List Char → Option (List Char × List Char)
  | [] => matchNumAt name []
  | c :: cs =>
    match matchNumAt name (c :: cs) with
    | some r => some r
    | none => searchNum name cs

/-- Leftmost match of the clickButtonUntilGone(page, quoted-selector, digits
pattern; the quoted selector is a maximal run of non-quote characters. -/
def matchClickAt (l : List Char) : Option (List Char × List Char) :=
  let lead := "clickButtonUntilGone(page,".data
  if startsWithL lead l then
    let rest := l.drop lead.length
    let sp1 := rest.takeWhile isPySpace
    match rest.dropWhile isPySpace with
    | [] => none
    | q1 :: rest2 =>
      if q1 == '\'' || q1 == '"' then
        let body := rest2.takeWhile (fun c => !(c == '\'' || c == '"'))
        if body.isEmpty then none
        else
          match rest2.dropWhile (fun c => !(c == '\'' || c == '"')) with
          | [] => none
          | q2 :: rest3 =>
            match rest3 with
            | [] => none
            | comma :: rest4 =>
              if comma == ',' then
                let sp2 := rest4.takeWhile isPySpace
                let digits := (rest4.dropWhile isPySpace).takeWhile Char.isDigit
                if digits.isEmpty then none
                else some (lead ++ sp1 ++ [q1] ++ body ++ [q2] ++ [','] ++ sp2 ++ digits, digits)
              else none
      else none
  else none

/-- re.search for the clickButtonUntilGone pattern. -/
def searchClick : List Char → Option (List Char × List Char)
  | [] => matchClickAt []
  | c :: cs =>
    match matchClickAt (c :: cs) with
    | some r => some r
    | none => searchClick cs

/-- One pattern step of increase_pagination_clicks: on a match, bump the
captured number by 5 inside the matched text (str.replace of the decimal
rendering, all occurrences inside the matched text) and splice the new text
over the first occurrence of the old text in the content. -/
def bumpStep (found : Option (List Char × List Char)) (content : List Char) :
    List Char × Bool :=
  match found with
  | none => (content, false)
  | some (oldText, digits) =>
    let oldNum := digitsToNat digits
    let newNum := oldNum + 5
    let newText := replaceAllL (Nat.repr oldNum).data (Nat.repr newNum).data oldText
    (replaceFirstL oldText newText content, true)

/-- increase_pagination_clicks: raise each recognized pagination limit by 5.
No precondition guards re-application. -/
def increasePaginationClicks (fs : FS) (scraperPath : String) : FS × Bool :=
  match fsLookup fs scraperPath with
  | none => (fs, false)
  | some content =>
    let l0 := content.data
    let (l1, m1) := bumpStep (searchNum "maxClicks".data l0) l0
    let (l2, m2) := bumpStep (searchNum "maxPages".data l1) l1
    let (l3, m3) := bumpStep (searchClick l2) l2
    if m1 || m2 || m3 then (fsWrite fs scraperPath (String.mk l3), true)
    else (fs, false)

/-- Python str.rstrip(): drop trailing whitespace. -/
def rstripL (l : List Char) : List Char :=
  (l.reverse.dropWhile isPySpace).reverse

/-- An ascii lowercase letter, the regex class a-z. -/
def isAsciiLower (c : Char) : Bool :=
  'a' ≤ c && c ≤ 'z'

/-- The trailing group of the venue-block regex: a newline, a nonempty
greedy whitespace run, then a lowercase letter.  Only the maximal run can
satisfy the letter that follows, so the test is deterministic. -/
def venueBlockEndAt (l : List Char) : Bool :=
  match l with
  | '\n' :: rest =>
    let k := (rest.takeWhile isPySpace).length
    decide (1 ≤ k) &&
      (match rest.drop k with
       | c :: _ => isAsciiLower c
       | [] => false)
  | _ => false

/-- The lazy dot-star of the venue-block regex: the shortest split of the
remaining text whose tail starts the end group. -/
def findVenueBlockEnd : List Char → Option (List Char × List Char)
  | [] => none
  | c :: cs =>
    if venueBlockEndAt (c :: cs) then some ([], c :: cs)
    else
      match findVenueBlockEnd cs with
      | some (b, r) => some (c :: b, r)
      | none => none

/-- Try the venue-block regex at one start position: a nonempty greedy
whitespace run (backtracking downward), the venue name and a colon, then
the lazy search for the end group; returns the first capture group. -/
def tryVenueWs (source : List Char) (l : List Char) : Nat → Option (List Char)
  | 0 => none
  | j + 1 =>
    let afterWs := l.drop (j + 1)
    if startsWithL (source ++ [':']) afterWs then
      match findVenueBlockEnd (afterWs.drop (source.length + 1)) with
      | some (mid, _) => some (l.take (j + 1) ++ source ++ [':'] ++ mid)
      | none => tryVenueWs source l j
    else tryVenueWs source l j

/-- Leftmost match of the venue-block regex of mark_times_unavailable. -/
def searchVenue (source : List Char) : List Char → Option (List Char)
  | [] => none
  | c :: cs =>
    match tryVenueWs source (c :: cs) ((c :: cs).takeWhile isPySpace).length with
    | some b => some b
    | none => searchVenue source cs

/-- The per-source baseline document read by the issue detectors and
amended by mark_times_unavailable. -/
def baselinePath : String := "src/config/venue_baselines.yaml"

/-- The line mark_times_unavailable splices into a venue block. -/
def timesUnavailableLine : String :=
  "    times_available: false  # Auto-added by self-healing"

/-- mark_times_unavailable: record times_available false inside the venue
block of the baseline document, when a block exists and the key is not
already present. -/
def markTimesUnavailable (fs : FS) (source : String) : FS × Bool :=
  match fsLookup fs baselinePath with
  | none => (fs, false)
  | some content =>
    match searchVenue source.data content.data with
    | none => (fs, false)
    | some blockL =>
      let block := String.mk blockL
      if strContains block "times_available:" then (fs, false)
      else
        let newBlock :=
          if strContains block "notes:" then
            strReplaceAll block "    notes:" (timesUnavailableLine ++ "\n    notes:")
          else
            String.mk (rstripL blockL) ++ "\n" ++ timesUnavailableLine
        (fsWrite fs baselinePath (strReplaceAll content block newBlock), true)

/-- The path of the extraction job of one source. -/
def scraperPathOf (source : String) : String :=
  "src/scrapers/" ++ source ++ ".js"

/-- apply_auto_fix: dispatch an automatic fix by issue-type tag, returning
the updated file system, the applied flag and the description. -/
def applyAutoFix (cy : Nat) (fs : FS) (source : String) (issueT : String) :
    FS × Bool × String :=
  let sp := scraperPathOf source
  if issueT = "wrong_year" then
    let r := fixYearInInstruction cy fs sp
    if r.2 then (r.1, true, "Fixed hardcoded year in " ++ sp)
    else (r.1, false, "Could not auto-fix year - manual intervention needed")
  else if issueT = "time_extraction_failed" then
    let r := markTimesUnavailable fs source
    if r.2 then (r.1, true, "Marked " ++ source ++ " as times_available: false in baselines")
    else (r.1, false, "Could not update baselines")
  else if issueT = "pagination_incomplete" then
    let r := increasePaginationClicks fs sp
    if r.2 then (r.1, true, "Increased pagination clicks in " ++ sp)
    else (r.1, false, "Could not find pagination settings to modify")
  else if issueT = "url_extraction_failed" then
    (fs, false, "URL extraction fixes require manual code changes")
  else
    (fs, false, "No auto-fix rule for issue type: " ++ issueT)

/-! self_healing_runner.py -/

/-- The issue taxonomy of the self-healing runner. -/
inductive IssueType where
  | stale_data
  | wrong_year
  | empty_results
  | url_extraction_failed
  | time_extraction_failed
  | pagination_incomplete
  | browser_crashed
  | low_event_count
  | unknown
deriving DecidableEq, BEq

/-- The string value of each issue tag. -/
def IssueType.value : IssueType → String
  | .stale_data => "stale_data"
  | .wrong_year => "wrong_year"
  | .empty_results => "empty_results"
  | .url_extraction_failed => "url_extraction_failed"
  | .time_extraction_failed => "time_extraction_failed"
  | .pagination_incomplete => "pagination_incomplete"
  | .browser_crashed => "browser_crashed"
  | .low_event_count => "low_event_count"
  | .unknown => "unknown"

/-- The catalog of remediation actions. -/
inductive FixAction where
  | retry
  | skip
  | escalate
  | fixed
deriving DecidableEq, BEq

/-- One healing decision for one issue. -/
structure HealingAction where
  issue : IssueType
  action : FixAction
  description : String
  applied : Bool := false

/-- The per-source outcome of a healing episode.  The duration and
screenshot fields carry no logic and are omitted. -/
structure ScrapeResult where
  source : String
  success : Bool
  events_count : Nat := 0
  issues : List IssueType := []
  error_message : String := ""
  retry_count : Nat := 0

/-- apply_healing: the healing catalog, dispatching on the issue type and
invoking apply_auto_fix for the side-effecting entries. -/
def applyHealing (cy : Nat) (fs : FS) (source : String) (issue : IssueType) :
    FS × HealingAction :=
  match issue with
  | .browser_crashed =>
    (fs, { issue := issue, action := .retry, description := "Browser crashed - will retry" })
  | .empty_results =>
    (fs, { issue := issue, action := .retry,
           description := "Empty results - will retry with fresh session" })
  | .wrong_year =>
    let r := applyAutoFix cy fs source "wrong_year"
    if r.2.1 then
      (r.1, { issue := issue, action := .retry,
              description := "Auto-fixed year extraction - " ++ r.2.2, applied := true })
    else
      (r.1, { issue := issue, action := .escalate,
              description := "Year extraction issue - " ++ r.2.2 })
  | .stale_data =>
    (fs, { issue := issue, action := .retry,
           description := "Stale data detected - will re-scrape" })
  | .url_extraction_failed =>
    let r := applyAutoFix cy fs source "url_extraction_failed"
    if r.2.1 then
      (r.1, { issue := issue, action := .retry,
              description := "Auto-fixed URL extraction - " ++ r.2.2, applied := true })
    else
      (r.1, { issue := issue, action := .escalate,
              description := "URL extraction failing - " ++ r.2.2 })
  | .time_extraction_failed =>
    let r := applyAutoFix cy fs source "time_extraction_failed"
    (r.1, { issue := issue, action := .skip,
            description := "Time extraction not available - " ++ r.2.2 })
  | .pagination_incomplete =>
    let r := applyAutoFix cy fs source "pagination_incomplete"
    if r.2.1 then
      (r.1, { issue := issue, action := .retry,
              description := "Increased pagination - " ++ r.2.2, applied := true })
    else
      (r.1, { issue := issue, action := .escalate,
              description := "Pagination issue - " ++ r.2.2 })
  | .low_event_count =>
    (fs, { issue := issue, action := .retry,
           description := "Low event count - will retry" })
  | .unknown =>
    (fs, { issue := issue, action := .escalate,
           description := "Unknown issue - needs manual review" })

/-- The outcome of one subprocess.run invocation of an extraction job. -/
inductive ProcOutcome where
  | timedOut
  | raised (msg : String)
  | done (rc : Int) (out err : String)

/-- The slice of a validate_source report that detect_issues reads.  The
percentages are rationals standing for the exact values of the float
report fields. -/
structure ValidationView where
  status_no_data : Bool
  warnings_has_past55 : Bool
  months_ahead : Int
  url_percent : ℚ := 100
  midnight_percentage : ℚ := 0
  baseline_within_range : Bool := true
  baseline_current : Nat := 0
  baseline_expected_min : Nat := 0

/-- What the environment supplies to one attempt of a healing episode: the
process outcome, the store validation view and the latest persisted event
count. -/
structure AttemptEnv where
  proc : ProcOutcome
  validation : ValidationView
  eventsInDb : Nat

/-- run_scraper: check that the job file exists, then run it as an external
process.  The last component counts external-process invocations. -/
def runScraper (fs : FS) (source : String) (proc : ProcOutcome) :
    Bool × String × String × Nat :=
  let sp := scraperPathOf source
  if (fsLookup fs sp).isNone then
    (false, "", "Scraper not found: " ++ sp, 0)
  else
    match proc with
    | .timedOut => (false, "", "Scraper timed out after 10 minutes", 1)
    | .raised m => (false, "", m, 1)
    | .done rc out err => (decide (rc = 0), out, err, 1)

/-- detect_issues: merge literal output markers with the store validation
view.  The 0.5 low-count factor is embedded exactly as doubling. -/
def detectIssues (stdout stderr : String) (v : ValidationView)
    (timesAvailable : Bool) : List IssueType :=
  let base :=
    (if strContains stderr "browser has been closed" || strContains stderr "Target page" then
      [IssueType.browser_crashed] else []) ++
    (if strContains stdout "No events found" ||
        strContains (strLower stdout) "events_scraped: 0" then
      [IssueType.empty_results] else [])
  if v.status_no_data then base ++ [IssueType.empty_results]
  else
    base ++
    (if v.warnings_has_past55 then [IssueType.stale_data] else []) ++
    (if v.months_ahead < 0 then [IssueType.wrong_year] else []) ++
    (if v.url_percent < 90 then [IssueType.url_extraction_failed] else []) ++
    (if v.midnight_percentage = 100 ∧ timesAvailable then
      [IssueType.time_extraction_failed] else []) ++
    (if v.baseline_within_range = false ∧
        2 * v.baseline_current < v.baseline_expected_min then
      [IssueType.low_event_count] else [])

/-- The healing loop body over the detected issues: apply a healing action
per issue, accumulate the file system, whether any action asks for a retry,
and the escalation message. -/
def healIssues (cy : Nat) (source : String) :
    List IssueType → FS → Bool → String → FS × Bool × String
  | [], fs, retry, err => (fs, retry, err)
  | i :: rest, fs, retry, err =>
    let (fs', act) := applyHealing cy fs source i
    let retry' := retry || act.action == FixAction.retry
    let err' := if act.action == FixAction.escalate then act.description else err
    healIssues cy source rest fs' retry' err'

/-- The fixed attempt budget of the self-healing runner. -/
def MAX_RETRIES : Nat := 3

/-- The message recorded when the attempt budget is exhausted. -/
def exhaustMessage (issues : List IssueType) : String :=
  "Failed after " ++ Nat.repr MAX_RETRIES ++ " attempts: [" ++
    String.intercalate ", " (issues.map (fun i => "'" ++ i.value ++ "'")) ++ "]"

/-- The code after the attempt loop: overwrite the error message when the
episode still has issues and did not succeed. -/
def finishEpisode (res : ScrapeResult) : ScrapeResult :=
  if res.issues.isEmpty = false ∧ res.success = false then
    { res with error_message := exhaustMessage res.issues }
  else res

/-- The attempt loop of run_with_healing, one recursive step per remaining
attempt.  Returns the episode result, the final file system and the number
of external-process invocations performed. -/
def runAttempts (cy : Nat) (source : String) (envs : Nat → AttemptEnv)
    (timesAvailable : Bool) :
    Nat → Nat → FS → ScrapeResult → ScrapeResult × FS × Nat
  | 0, _, fs, res => (finishEpisode res, fs, 0)
  | rem + 1, attempt, fs, res =>
    let res1 := { res with retry_count := attempt }
    let env := envs attempt
    let r := runScraper fs source env.proc
    let inv := r.2.2.2
    if r.1 = false ∧ strContains r.2.2.1 "Scraper not found" then
      ({ res1 with error_message := r.2.2.1 }, fs, inv)
    else
      let issues := detectIssues r.2.1 r.2.2.1 env.validation timesAvailable
      let res2 := { res1 with issues := issues }
      if issues.isEmpty then
        ({ res2 with success := true, events_count := env.eventsInDb }, fs, inv)
      else
        let h := healIssues cy source issues fs false res2.error_message
        let res3 := { res2 with error_message := h.2.2 }
        if h.2.1 then
          let k := runAttempts cy source envs timesAvailable rem (attempt + 1) h.1 res3
          (k.1, k.2.1, inv + k.2.2)
        else
          (finishEpisode res3, h.1, inv)

/-- run_with_healing: a bounded healing episode for one source. -/
def runWithHealing (cy : Nat) (source : String) (envs : Nat → AttemptEnv)
    (timesAvailable : Bool) (fs : FS) : ScrapeResult × FS × Nat :=
  runAttempts cy source envs timesAvailable MAX_RETRIES 0 fs
    { source := source, success := false }

/-- The summary block of a fleet report. -/
structure RunSummary where
  total : Nat
  success : Nat
  failed : Nat
  skipped : Nat
  total_events : Nat

/-- The running aggregate of a fleet run. -/
structure FleetAcc where
  fs : FS
  success : Nat
  failed : Nat
  skipped : Nat
  total_events : Nat
  results : List ScrapeResult

/-- The per-source loop of run_all, accumulating bucket counts and the
per-source results. -/
def runAllAux (cy : Nat) (envs : String → Nat → AttemptEnv)
    (timesAvailable : String → Bool) : List String → FS → FleetAcc
  | [], fs => ⟨fs, 0, 0, 0, 0, []⟩
  | s :: rest, fs =>
    let r := runWithHealing cy s (envs s) (timesAvailable s) fs
    let res := r.1
    let acc := runAllAux cy envs timesAvailable rest r.2.1
    if res.success then
      { acc with success := acc.success + 1,
                 total_events := acc.total_events + res.events_count,
                 results := res :: acc.results }
    else if res.issues.isEmpty = false ∧
        res.issues.contains IssueType.time_extraction_failed then
      { acc with skipped := acc.skipped + 1, results := res :: acc.results }
    else
      { acc with failed := acc.failed + 1, results := res :: acc.results }

/-- run_all: sequence healing episodes over the sources and aggregate the
fleet summary. -/
def runAll (cy : Nat) (envs : String → Nat → AttemptEnv)
    (timesAvailable : String → Bool) (sources : List String) (fs : FS) :
    FS × RunSummary × List ScrapeResult :=
  let acc := runAllAux cy envs timesAvailable sources fs
  (acc.fs, { total := sources.length, success := acc.success, failed := acc.failed,
             skipped := acc.skipped, total_events := acc.total_events }, acc.results)

/-! diagnose_scraper.py -/

/-- The slice of a scraper profile that failure analysis reads. -/
structure ProfileView where
  events_in_db : Nat
  data_is_stale : Bool

/-- _analyze_failure: categorize the failure from the error text and the
store state, first match wins. -/
def analyzeFailure (errorOutput : String) (p : ProfileView) : String :=
  if strContains errorOutput "Timeout" && strContains errorOutput "goto" then
    "navigation_timeout"
  else if strContains errorOutput "Target page, context or browser has been closed" then
    "session_crash"
  else if strContains errorOutput "events_scraped: 0" || decide (p.events_in_db = 0) then
    "empty_results"
  else if strContains errorOutput "ModuleNotFoundError" || strContains errorOutput "No module named" then
    "python_dependency_missing"
  else if strContains errorOutput "No more" && strContains errorOutput "button found after 0 clicks" then
    "button_not_found"
  else if p.data_is_stale then
    "stale_data"
  else
    "unknown"

/-- One classification rule: a signature over the evidence and the category
it yields. -/
structure ClassRule where
  cond : String → ProfileView → Bool
  category : String

/-- The ordered precedence list the classifier implements, as data: first
match wins, with unknown as the default. -/
def classifierRules : List ClassRule :=
  [ ⟨fun e _ => strContains e "Timeout" && strContains e "goto", "navigation_timeout"⟩,
    ⟨fun e _ => strContains e "Target page, context or browser has been closed", "session_crash"⟩,
    ⟨fun e p => strContains e "events_scraped: 0" || decide (p.events_in_db = 0), "empty_results"⟩,
    ⟨fun e _ => strContains e "ModuleNotFoundError" || strContains e "No module named", "python_dependency_missing"⟩,
    ⟨fun e _ => strContains e "No more" && strContains e "button found after 0 clicks", "button_not_found"⟩,
    ⟨fun _ p => p.data_is_stale, "stale_data"⟩ ]

/-- First-match-wins evaluation of an ordered rule list. -/
def firstMatchCategory : List ClassRule → String → ProfileView → String
  | [], _, _ => "unknown"
  | r :: rs, e, p => if r.cond e p then r.category else firstMatchCategory rs e p

/-- One recommended fix; confidence is the float prior scaled by 100. -/
structure RecFix where
  priority : Nat
  action : String
  confidence : Nat

/-- _generate_recommendations: the canonical fix list and the overall
confidence for each failure category (confidences scaled by 100; the
description and rationale strings carry no logic and are omitted). -/
def generateRecommendations (category : String) (paginationMethod : String) :
    List RecFix × Nat :=
  if category = "python_dependency_missing" then
    ([⟨1, "fix_python_path", 90⟩, ⟨2, "install_python_dependency", 70⟩], 90)
  else if category = "button_not_found" then
    ([⟨1, "fix_button_selector_case", 85⟩, ⟨2, "take_screenshot_and_inspect", 70⟩], 85)
  else if category = "navigation_timeout" then
    ([⟨1, "increase_navigation_timeout", 90⟩, ⟨2, "add_retry_on_timeout", 70⟩], 90)
  else if category = "session_crash" then
    if paginationMethod = "click_stagehand" then
      ([⟨1, "use_direct_dom_click", 70⟩, ⟨2, "extract_before_pagination", 70⟩,
        ⟨3, "switch_to_scroll", 60⟩], 70)
    else if paginationMethod = "click_direct" then
      ([⟨1, "extract_before_pagination", 80⟩, ⟨2, "add_session_recovery", 60⟩,
        ⟨3, "switch_to_scroll", 50⟩], 70)
    else
      ([⟨1, "investigate_session_crash", 40⟩], 40)
  else if category = "empty_results" then
    ([⟨1, "increase_wait_times", 60⟩, ⟨2, "check_page_structure", 50⟩], 50)
  else if category = "stale_data" then
    ([⟨1, "rerun_scraper", 40⟩], 40)
  else
    ([⟨1, "manual_investigation", 20⟩], 20)

/-! visual_self_healer.py -/

/-- diagnose_issues of the visual self-healer: the issue scan over scraper
output, with the blocked-site short circuit.  The unused visual-analysis
argument of the source is omitted; the baseline argument is the effective
typical_event_count_min when a baseline document exists.  The 0.5 factor is
embedded exactly as doubling. -/
def diagnoseIssues (stdout stderr : String) (eventsCount : Nat)
    (baselineMin : Option Nat) : List String :=
  if strContains stderr "ERR_TUNNEL_CONNECTION_FAILED" ||
     strContains stdout "ERR_TUNNEL_CONNECTION_FAILED" then
    ["SITE_BLOCKED"]
  else
    (if strContains stderr "browser has been closed" || strContains stderr "Target page" then
      (if strContains stdout "Load More" || strContains stdout "clickButtonUntilGone" then
        ["LOAD_MORE_CRASH"] else ["BROWSER_CRASHED"])
     else []) ++
    (if strContains stdout "404" || strContains stdout "Page Not Found" ||
        strContains (strLower stdout) "couldn't find anything" then
      ["PAGE_404"] else []) ++
    (if strContains stdout "Event Image Link" ||
        (strContains stdout "eventUrl" && !strContains stdout "http") then
      ["BAD_URL_EXTRACTION"] else []) ++
    (if eventsCount = 0 then ["EMPTY_RESULTS"] else []) ++
    (if strContains (strLower stderr) "timeout" then ["TIMEOUT"] else []) ++
    (if strContains stdout "Load More" && decide (eventsCount < 20) then
      ["PAGINATION_INCOMPLETE"] else []) ++
    (match baselineMin with
     | some m => if 2 * eventsCount < m then ["LOW_EVENT_COUNT"] else []
     | none => [])

/-- A dynamically typed JSON value, as json.loads yields it.  Numbers are
embedded as integers; no claimed behavior depends on fractional values. -/
inductive JsonVal where
  | jnull
  | jbool (b : Bool)
  | jnum (n : Int)
  | jstr (s : String)
  | jarr (a : List JsonVal)
  | jobj (o : List (String × JsonVal))

/-- The Python exception kinds the embedded bodies can raise. -/
inductive PyErr where
  | attributeError
  | typeError

/-- dict.get(key, default): total on dicts, raises AttributeError on every
other value. -/
def pyGet (v : JsonVal) (k : String) (dflt : JsonVal) : Except PyErr JsonVal :=
  match v with
  | .jobj o =>
    match o.lookup k with
    | some w => Except.ok w
    | none => Except.ok dflt
  | _ => Except.error PyErr.attributeError

/-- Python truthiness of a JSON value. -/
def pyTruthy : JsonVal → Bool
  | .jnull => false
  | .jbool b => b
  | .jnum n => !(n == 0)
  | .jstr s => !s.isEmpty
  | .jarr a => !a.isEmpty
  | .jobj o => !o.isEmpty

/-- Coerce to a string or raise, as string-expecting operations do. -/
def pyAsString : JsonVal → Except PyErr String
  | .jstr s => Except.ok s
  | _ => Except.error PyErr.typeError

/-- Python iteration over a value expected to be a list: lists iterate
their elements; empty strings and empty dicts iterate nothing; nonempty
strings and dicts yield non-dict elements whose .get raises
AttributeError; everything else raises TypeError. -/
def pyIterList : JsonVal → Except PyErr (List JsonVal)
  | .jarr a => Except.ok a
  | .jstr s => if s.isEmpty then Except.ok [] else Except.error PyErr.attributeError
  | .jobj o => if o.isEmpty then Except.ok [] else Except.error PyErr.attributeError
  | _ => Except.error PyErr.typeError

/-- The greedy brace regex used to find JSON in free text: from the first
opening brace through the last closing brace after it. -/
def extractBraces (l : List Char) : Option (List Char) :=
  match l.dropWhile (fun c => !(c == '\x7b')) with
  | [] => none
  | b :: rest =>
    let tail := (rest.reverse.dropWhile (fun c => !(c == '\x7d'))).reverse
    if tail.isEmpty then none else some (b :: tail)

/-- str.find for a marker followed by taking the remainder of the text, or
none when the marker does not occur. -/
def afterFirst (pat : List Char) : List Char → Option (List Char)
  | [] => if startsWithL pat [] then some [] else none
  | c :: cs =>
    if startsWithL pat (c :: cs) then some ((c :: cs).drop pat.length)
    else afterFirst pat cs

/-! browserbase_feedback.py -/

/-- Diagnostics of one remote browser session; the fields keep the dynamic
typing of the parsed JSON. -/
structure SessionDiagnostics where
  session_id : String
  total_events : JsonVal
  has_scrolled : JsonVal
  scroll_count : JsonVal
  click_count : JsonVal
  error_count : JsonVal
  session_duration : JsonVal
  navigations : List JsonVal
  errors : JsonVal
  insights : JsonVal
  recommendations : JsonVal

/-- The marker line preceding the JSON block of the diagnostics module. -/
def diagnosticsMarker : String := "=== FULL DIAGNOSTICS ==="

/-- The JSON candidate get_session_diagnostics extracts from the process
output: the text after the marker stripped, or the greedy brace span. -/
def jsonCandidate (out : String) : Option String :=
  match afterFirst diagnosticsMarker.data out.data with
  | some rest => some (String.mk rest).trim
  | none => (extractBraces out.data).map String.mk

/-- The record construction of get_session_diagnostics over the parsed
JSON, with the dynamic attribute and type errors of the source made
explicit. -/
def buildSessionDiagnostics (sessionId : String) (data : JsonVal) :
    Except PyErr SessionDiagnostics := do
  let analysis ← pyGet data "analysis" (.jobj [])
  let summary ← pyGet analysis "summary" (.jobj [])
  let te ← pyGet analysis "totalEvents" (.jnum 0)
  let hs ← pyGet summary "hasScrolled" (.jbool false)
  let sc ← pyGet summary "scrollCount" (.jnum 0)
  let cc ← pyGet summary "clickCount" (.jnum 0)
  let ec ← pyGet summary "errorCount" (.jnum 0)
  let sd ← pyGet summary "sessionDuration" (.jnum 0)
  let navsV ← pyGet analysis "navigations" (.jarr [])
  let navsL ← pyIterList navsV
  let navs ← navsL.mapM (fun nv => pyGet nv "url" (.jstr ""))
  let errs ← pyGet analysis "errors" (.jarr [])
  let ins ← pyGet data "insights" (.jarr [])
  let recs ← pyGet data "recommendations" (.jarr [])
  Except.ok { session_id := sessionId, total_events := te, has_scrolled := hs,
              scroll_count := sc, click_count := cc, error_count := ec,
              session_duration := sd, navigations := navs, errors := errs,
              insights := ins, recommendations := recs }

/-- get_session_diagnostics: run the diagnostics subprocess, extract and
parse its JSON, and build the diagnostics record.  Every exception path of
the source (timeout, subprocess error, JSON decode error, attribute and
type errors on unexpected shapes) is caught and yields none; jsonParse
stands for json.loads, erring exactly when the source would raise
JSONDecodeError. -/
def getSessionDiagnostics (sessionId : String) (proc : ProcOutcome)
    (jsonParse : String → Except Unit JsonVal) : Option SessionDiagnostics :=
  if sessionId = "" then none
  else
    match proc with
    | .timedOut => none
    | .raised _ => none
    | .done rc out _err =>
      if rc ≠ 0 then none
      else
        match jsonCandidate out with
        | none => none
        | some js =>
          match jsonParse js with
          | .error _ => none
          | .ok data =>
            match buildSessionDiagnostics sessionId data with
            | .error _ => none
            | .ok d => some d

/-- Path.with_suffix: replace the extension of the last path component (a
leading dot marks a hidden file, not an extension), or append when the
component has none. -/
def withSuffix (p suffix : String) : String :=
  let l := p.data
  let comp := (l.reverse.takeWhile (fun c => !(c == '/'))).reverse
  let pre := l.take (l.length - comp.length)
  let extRevLen := (comp.reverse.takeWhile (fun c => !(c == '.'))).length
  let stem :=
    if extRevLen + 1 < comp.length then comp.take (comp.length - extRevLen - 1)
    else comp
  String.mk (pre ++ stem ++ suffix.data)

/-- The environment of one _try_write_fix attempt: whether the optional
client modules import, whether the API key is configured, whether the
completion call returns (rather than raising), the completion text, and
json.loads. -/
structure WriteFixEnv where
  importOk : Bool
  apiKeyPresent : Bool
  responseOk : Bool
  responseText : String
  jsonParse : String → Except Unit JsonVal

/-- The search-replace loop of _try_write_fix: skip falsy search strings,
apply each matching pair to the first occurrence, raise on non-string
search or replace values the way the source would. -/
def foldSearchReplace : List JsonVal → String → Except PyErr String
  | [], m => Except.ok m
  | ch :: rest, m => do
    let sV ← pyGet ch "search" (.jstr "")
    let rV ← pyGet ch "replace" (.jstr "")
    if pyTruthy sV then do
      let s ← pyAsString sV
      if strContains m s then do
        let r ← pyAsString rV
        foldSearchReplace rest (strReplaceFirst m s r)
      else foldSearchReplace rest m
    else foldSearchReplace rest m

/-- _try_write_fix: ask the completion service for a minimal search-replace
fix, apply it, and write the scraper only after ensuring a sibling backup
exists.  Every exception path yields false with the file system untouched;
the prompt construction (reference-scraper reading included) only feeds the
external service and is represented by the response text. -/
def tryWriteFix (fs : FS) (scraperPath : String) (env : WriteFixEnv) : FS × Bool :=
  if env.importOk = false then (fs, false)
  else if env.apiKeyPresent = false then (fs, false)
  else
    match fsLookup fs scraperPath with
    | none => (fs, false)
    | some currentCode =>
      if env.responseOk = false then (fs, false)
      else
        match extractBraces env.responseText.data with
        | none => (fs, false)
        | some jm =>
          match env.jsonParse (String.mk jm) with
          | .error _ => (fs, false)
          | .ok fixData =>
            let body : Except PyErr (Option String) := do
              let canFix ← pyGet fixData "can_fix" .jnull
              if pyTruthy canFix = false then Except.ok none
              else do
                let srV ← pyGet fixData "search_replace" (.jarr [])
                let changes ← pyIterList srV
                let m ← foldSearchReplace changes currentCode
                Except.ok (some m)
            match body with
            | .error _ => (fs, false)
            | .ok none => (fs, false)
            | .ok (some modifiedCode) =>
              if modifiedCode ≠ currentCode then
                let bp := withSuffix scraperPath ".js.backup_written_fix"
                let fs1 := if (fsLookup fs bp).isSome then fs else fsWrite fs bp currentCode
                (fsWrite fs1 scraperPath modifiedCode, true)
              else (fs, false)

/-! exploratory_healer.py -/

/-- The environment of one exploration: the events each probe run finds and
what the vision analysis suggests. -/
structure ExploreEnv where
  initialEvents : Nat
  hasScreenshot : Bool
  suggestedSeq : List String
  seqEvents : Nat
  recommendedActions : List String
  recEvents : String → Nat

/-- The observable outcome of explore_and_discover: the retained best
pattern, the final events_found, how many probe runs and vision analyses
were performed, and whether a job definition was generated. -/
structure ExploreResult where
  bestPattern : Option (List String × Nat)
  eventsFound : Nat
  probeRuns : Nat
  visionCalls : Nat
  generated : Bool

/-- The individual-recommendation loop of explore_and_discover: try up to
three recommended actions, skipping empty ones, keeping the best result
monotonically and stopping at the first nonzero count. -/
def tryRecommended (env : ExploreEnv) :
    List String → Option (List String × Nat) → Nat → Nat →
    Option (List String × Nat) × Nat × Nat
  | [], best, ef, runs => (best, ef, runs)
  | a :: rest, best, ef, runs =>
    if a = "" then tryRecommended env rest best ef runs
    else
      let ev := env.recEvents a
      let best' := if ev > ef then some ([a], ev) else best
      let ef' := if ev > ef then ev else ef
      if ev > 0 then (best', ef', runs + 1)
      else tryRecommended env rest best' ef' (runs + 1)

/-- explore_and_discover: probe with zero actions first, stop early only on
twenty or more events, otherwise analyze a screenshot, try the suggested
sequence, then individual recommendations while no events were found. -/
def exploreAndDiscover (env : ExploreEnv) : ExploreResult :=
  let ev0 := env.initialEvents
  let best0 : Option (List String × Nat) :=
    if ev0 > 0 then some ([], ev0) else none
  let ef0 := if ev0 > 0 then ev0 else 0
  if ev0 > 0 ∧ 20 ≤ ev0 then
    { bestPattern := best0, eventsFound := ef0, probeRuns := 1,
      visionCalls := 0, generated := false }
  else if env.hasScreenshot = false then
    { bestPattern := best0, eventsFound := ef0, probeRuns := 1,
      visionCalls := 0, generated := false }
  else
    let (best1, ef1, runs1) :=
      if env.suggestedSeq.isEmpty = false then
        let ev1 := env.seqEvents
        (if ev1 > ef0 then some (env.suggestedSeq, ev1) else best0,
         if ev1 > ef0 then ev1 else ef0, 2)
      else (best0, ef0, 1)
    let (best2, ef2, runs2) :=
      if ef1 = 0 then
        tryRecommended env (env.recommendedActions.take 3) best1 ef1 runs1
      else (best1, ef1, runs1)
    { bestPattern := best2, eventsFound := ef2, probeRuns := runs2,
      visionCalls := 1, generated := best2.isSome }

/-! validate_scraper_results.py -/

/-- The historical-comparison verdict; the formatted report strings are
replaced by fixed tags. -/
structure HistComparison where
  has_history : Bool
  issues : List String
  warnings : List String

/-- The tag standing for the critical low-count issue string. -/
def criticalLowTag : String := "CRITICAL: event count below half the historical average"

/-- The tag standing for the warning low-count string. -/
def warnLowTag : String := "WARNING: event count well below the historical average"

/-- The tag standing for the unusually-high info string. -/
def infoHighTag : String := "INFO: event count unusually high"

/-- analyze_historical_comparison: compare the current count to the mean of
the nonzero historical counts; a run list entry of zero stands for a falsy
events_scraped (zero or missing).  The float factors 0.5, 0.7 and 1.5 are
embedded as exact rationals. -/
def analyzeHistoricalComparison (current : Nat) (runs : List Nat) : HistComparison :=
  if runs.isEmpty then ⟨false, [], []⟩
  else
    let counts := runs.filter (fun n => n != 0)
    if counts.isEmpty then ⟨false, [], []⟩
    else
      let avg : ℚ := (counts.sum : ℚ) / (counts.length : ℚ)
      let maxC := counts.foldr max 0
      if (current : ℚ) < avg * (1 / 2) then ⟨true, [criticalLowTag], []⟩
      else if (current : ℚ) < avg * (7 / 10) then ⟨true, [], [warnLowTag]⟩
      else if (maxC : ℚ) * (3 / 2) < (current : ℚ) then ⟨true, [], [infoHighTag]⟩
      else ⟨true, [], []⟩

theorem fsLookup_filter_ne (fs : FS) (p q : String) (h : q ≠ p) :
    fsLookup ((fs : List (String × String)).filter (fun e => e.1 != p)) q = fsLookup fs q := by
  induction fs with
  | nil => rfl
  | cons e t ih =>
    obtain ⟨a, b⟩ := e
    by_cases hap : a = p
    · subst hap
      have : (a != a) = false := by simp
      simp only [List.filter, this, fsLookup, ih]
      rw [if_neg (fun hq => h hq.symm)]
    · have : (a != p) = true := by simpa using hap
      simp only [List.filter, this, fsLookup, ih]

theorem fsLookup_fsWrite_self (fs : FS) (p c : String) :
    fsLookup (fsWrite fs p c) p = some c := by
  simp [fsWrite, fsLookup]

theorem fsLookup_fsWrite_ne (fs : FS) (p c q : String) (h : q ≠ p) :
    fsLookup (fsWrite fs p c) q = fsLookup fs q := by
  simp only [fsWrite, fsLookup]
  rw [if_neg (fun hq => h hq.symm)]
  exact fsLookup_filter_ne fs p q h

theorem fsWrite_isSome_mono (fs : FS) (p c q : String)
    (h : (fsLookup fs q).isSome = true) :
    (fsLookup (fsWrite fs p c) q).isSome = true := by
  by_cases hq : q = p
  · subst hq
    simp [fsLookup_fsWrite_self]
  · rw [fsLookup_fsWrite_ne fs p c q hq]
    exact h

theorem fsWrite_isSome_iff (fs : FS) (p c q : String)
    (hp : (fsLookup fs p).isSome = true) :
    (fsLookup (fsWrite fs p c) q).isSome = (fsLookup fs q).isSome := by
  by_cases hq : q = p
  · subst hq
    simp [fsLookup_fsWrite_self, hp]
  · rw [fsLookup_fsWrite_ne fs p c q hq]

theorem runScraper_invocations_le_one (fs : FS) (source : String) (proc : ProcOutcome) :
    (runScraper fs source proc).2.2.2 ≤ 1 := by
  cases proc <;> simp only [runScraper] <;> split <;> simp

theorem runAttempts_invocations_le (cy : Nat) (source : String)
    (envs : Nat → AttemptEnv) (ta : Bool) :
    ∀ rem attempt fs res,
      (runAttempts cy source envs ta rem attempt fs res).2.2 ≤ rem := by
  intro rem
  induction rem with
  | zero => intro attempt fs res; simp [runAttempts]
  | succ n ih =>
    intro attempt fs res
    have hinv := runScraper_invocations_le_one fs source (envs attempt).proc
    simp only [runAttempts]
    split
    · dsimp only
      omega
    · split
      · dsimp only
        omega
      · split
        · dsimp only
          refine Nat.le_trans (Nat.add_le_add hinv (ih (attempt + 1) _ _)) ?_
          omega
        · dsimp only
          omega

/-! Case-analysis lemmas for the patch transformations: each patch either
leaves the file system untouched and reports false, or overwrites an
existing file in place. -/

theorem fixYear_cases (cy : Nat) (fs : FS) (sp : String) :
    fixYearInInstruction cy fs sp = (fs, false) ∨
    ∃ content c2, fsLookup fs sp = some content ∧ c2 ≠ content ∧
      fixYearInInstruction cy fs sp = (fsWrite fs sp c2, true) := by
  unfold fixYearInInstruction
  cases h : fsLookup fs sp with
  | none => left; rfl
  | some content =>
    dsimp only
    split_ifs <;>
      first
        | (left; rfl)
        | (refine Or.inr ⟨content, _, rfl, ?_, rfl⟩; assumption)

theorem increasePagination_cases (fs : FS) (sp : String) :
    increasePaginationClicks fs sp = (fs, false) ∨
    ∃ content c2, fsLookup fs sp = some content ∧
      increasePaginationClicks fs sp = (fsWrite fs sp c2, true) := by
  unfold increasePaginationClicks
  cases h : fsLookup fs sp with
  | none => left; rfl
  | some content =>
    dsimp only
    split
    · next _ => right; exact ⟨content, _, rfl, rfl⟩
    · left; rfl

theorem markTimes_cases (fs : FS) (source : String) :
    markTimesUnavailable fs source = (fs, false) ∨
    ∃ content c2, fsLookup fs baselinePath = some content ∧
      markTimesUnavailable fs source = (fsWrite fs baselinePath c2, true) := by
  unfold markTimesUnavailable
  cases h : fsLookup fs baselinePath with
  | none => left; rfl
  | some content =>
    dsimp only
    cases hv : searchVenue source.data content.data with
    | none => left; rfl
    | some blockL =>
      dsimp only
      split
      · left; rfl
      · right; exact ⟨content, _, rfl, rfl⟩

/-- The per-source results predicate that run_all counts as skipped. -/
def skippedPred (r : ScrapeResult) : Bool :=
  !r.success && (!r.issues.isEmpty && r.issues.contains IssueType.time_extraction_failed)

theorem runAllAux_counts (cy : Nat) (envs : String → Nat → AttemptEnv)
    (ta : String → Bool) :
    ∀ (sources : List String) (fs : FS),
      (runAllAux cy envs ta sources fs).success + (runAllAux cy envs ta sources fs).failed +
          (runAllAux cy envs ta sources fs).skipped = sources.length ∧
      (runAllAux cy envs ta sources fs).skipped =
        (runAllAux cy envs ta sources fs).results.countP skippedPred ∧
      (runAllAux cy envs ta sources fs).results.length = sources.length := by
  intro sources
  induction sources with
  | nil => intro fs; simp [runAllAux]
  | cons s rest ih =>
    intro fs
    obtain ⟨ih1, ih2, ih3⟩ := ih (runWithHealing cy s (envs s) (ta s) fs).2.1
    simp only [runAllAux]
    split
    · next hsucc =>
      refine ⟨by simp; omega, ?_, by simp [ih3]⟩
      simp [List.countP_cons, skippedPred, hsucc, ih2]
    · split
      · next hsucc hskip =>
        refine ⟨by simp; omega, ?_, by simp [ih3]⟩
        simp [List.countP_cons, skippedPred, hsucc, hskip.1, hskip.2, ih2]
      · next hsucc hskip =>
        refine ⟨by simp; omega, ?_, by simp [ih3]⟩
        rw [not_and_or] at hskip
        rcases hskip with hskip | hskip <;>
          simp_all [List.countP_cons, skippedPred]

/-- C4: a healing episode performs at most MAX_RETRIES external-process
invocations; the episode function is total (structural recursion on the
remaining budget), so it always terminates. -/
theorem healing_episode_invocation_bound (cy : Nat) (source : String)
    (envs : Nat → AttemptEnv) (ta : Bool) (fs : FS) :
    (runWithHealing cy source envs ta fs).2.2 ≤ MAX_RETRIES :=
  runAttempts_invocations_le cy source envs ta MAX_RETRIES 0 fs
    { source := source, success := false }

/-- C9: the fleet summary of run_all partitions the processed sources:
success, failed and skipped sum to the total, the total is the number of
sources, and a source is skipped exactly when its episode did not succeed
and its issues include time_extraction_failed. -/
theorem fleet_summary_partition (cy : Nat) (envs : String → Nat → AttemptEnv)
    (ta : String → Bool) (sources : List String) (fs : FS) :
    (runAll cy envs ta sources fs).2.1.success + (runAll cy envs ta sources fs).2.1.failed +
        (runAll cy envs ta sources fs).2.1.skipped = (runAll cy envs ta sources fs).2.1.total ∧
    (runAll cy envs ta sources fs).2.1.total = sources.length ∧
    (runAll cy envs ta sources fs).2.1.skipped =
      (runAll cy envs ta sources fs).2.2.countP skippedPred := by
  obtain ⟨h1, h2, _⟩ := runAllAux_counts cy envs ta sources fs
  exact ⟨h1, rfl, h2⟩

/-- C5: for every failure category (and every peer pagination method), the
recommended fix list is sorted in non-increasing order of confidence. -/
theorem recommended_fixes_sorted_desc (category paginationMethod : String) :
    List.Chain' (fun a b => b ≤ a)
      (((generateRecommendations category paginationMethod).1).map RecFix.confidence) := by
  unfold generateRecommendations
  split_ifs <;> simp [List.chain'_cons]

/-- The evidence text of the C2 counterexample: it carries both the
navigation-timeout signature and the session-closed signature. -/
def bothSignaturesErr : String :=
  "Timeout 30000ms exceeded during page.goto Target page, context or browser has been closed"

/-- C2 counterexample: an error text matching both the session-closed and
the navigation-timeout signatures is classified navigation_timeout, not
browser_session_crashed, and a blocked-site text is classified unknown by
the failure classifier (no blocked-site branch exists there). -/
theorem classifier_order_counterexample :
    analyzeFailure bothSignaturesErr ⟨5, false⟩ = "navigation_timeout" ∧
    analyzeFailure bothSignaturesErr ⟨5, false⟩ ≠ "session_crash" ∧
    analyzeFailure "ERR_TUNNEL_CONNECTION_FAILED" ⟨5, false⟩ = "unknown" := by
  decide

/-- C2 amended: the failure classifier is first-match-wins over the ordered
rule list navigation-timeout, session-closed, zero extracted records,
missing dependency, pagination-button-not-found-with-zero-clicks, stale
data, with unknown as default; the blocked-site signature is handled by the
visual healer issue scan, which short-circuits to SITE_BLOCKED alone. -/
theorem classifier_first_match_amended :
    (∀ (e : String) (p : ProfileView),
      analyzeFailure e p = firstMatchCategory classifierRules e p) ∧
    (∀ (stdout stderr : String) (ec : Nat) (bm : Option Nat),
      (strContains stderr "ERR_TUNNEL_CONNECTION_FAILED" ||
        strContains stdout "ERR_TUNNEL_CONNECTION_FAILED") = true →
      diagnoseIssues stdout stderr ec bm = ["SITE_BLOCKED"]) := by
  constructor
  · intro e p
    rfl
  · intro stdout stderr ec bm h
    simp only [diagnoseIssues, h]
    rfl

/-- Witness for the C2 amended theorem at a concrete blocked run. -/
theorem classifier_first_match_amended_witness :
    diagnoseIssues "" "net::ERR_TUNNEL_CONNECTION_FAILED" 0 none = ["SITE_BLOCKED"] :=
  classifier_first_match_amended.2 "" "net::ERR_TUNNEL_CONNECTION_FAILED" 0 none (by decide)

theorem buildSessionDiagnostics_session_id (sid : String) (data : JsonVal)
    (d : SessionDiagnostics) (h : buildSessionDiagnostics sid data = Except.ok d) :
    d.session_id = sid := by
  simp only [buildSessionDiagnostics, bind, Except.bind] at h
  repeat' split at h
  all_goals first
    | exact (Except.noConfusion h)
    | (cases h; rfl)

/-- C10: get_session_diagnostics is total and never propagates an
exception: it yields none or a diagnostics record populated for the given
session id, and yields none when the id is empty, when the subprocess
times out, raises or exits nonzero, when no JSON candidate can be
extracted from its output, and when the candidate does not parse. -/
theorem session_diagnostics_total (sid : String) (proc : ProcOutcome)
    (parse : String → Except Unit JsonVal) :
    (getSessionDiagnostics sid proc parse = none ∨
      ∃ d, getSessionDiagnostics sid proc parse = some d ∧ d.session_id = sid) ∧
    (sid = "" → getSessionDiagnostics sid proc parse = none) ∧
    (proc = ProcOutcome.timedOut → getSessionDiagnostics sid proc parse = none) ∧
    (∀ m, proc = ProcOutcome.raised m → getSessionDiagnostics sid proc parse = none) ∧
    (∀ rc out err, proc = ProcOutcome.done rc out err → rc ≠ 0 →
      getSessionDiagnostics sid proc parse = none) ∧
    (∀ rc out err, proc = ProcOutcome.done rc out err → jsonCandidate out = none →
      getSessionDiagnostics sid proc parse = none) ∧
    (∀ rc out err js, proc = ProcOutcome.done rc out err → jsonCandidate out = some js →
      parse js = Except.error () → getSessionDiagnostics sid proc parse = none) := by
  refine ⟨?_, ?_, ?_, ?_, ?_, ?_, ?_⟩
  · by_cases hs : sid = ""
    · left; simp [getSessionDiagnostics, hs]
    · cases proc with
      | timedOut => left; simp [getSessionDiagnostics, hs]
      | raised m => left; simp [getSessionDiagnostics, hs]
      | done rc out err =>
        by_cases hrc : rc = 0
        · subst hrc
          cases hj : jsonCandidate out with
          | none => left; simp [getSessionDiagnostics, hs, hj]
          | some js =>
            cases hp : parse js with
            | error e => left; simp [getSessionDiagnostics, hs, hj, hp]
            | ok data =>
              cases hb : buildSessionDiagnostics sid data with
              | error e => left; simp [getSessionDiagnostics, hs, hj, hp, hb]
              | ok d =>
                right
                refine ⟨d, ?_, buildSessionDiagnostics_session_id sid data d hb⟩
                simp [getSessionDiagnostics, hs, hj, hp, hb]
        · left; simp [getSessionDiagnostics, hs, hrc]
  · intro hs; simp [getSessionDiagnostics, hs]
  · intro hp; subst hp; simp [getSessionDiagnostics]
  · intro m hp; subst hp; simp [getSessionDiagnostics]
  · intro rc out err hp hrc; subst hp; simp [getSessionDiagnostics, hrc]
  · intro rc out err hp hj; subst hp
    by_cases hrc : rc = 0
    · subst hrc; simp [getSessionDiagnostics, hj]
    · simp [getSessionDiagnostics, hrc]
  · intro rc out err js hp hj hparse; subst hp
    by_cases hrc : rc = 0
    · subst hrc; simp [getSessionDiagnostics, hj, hparse]
    · simp [getSessionDiagnostics, hrc]

/-- Witness for the C10 theorem: the empty session id yields none. -/
theorem session_diagnostics_total_witness :
    getSessionDiagnostics "" ProcOutcome.timedOut (fun _ => Except.error ()) = none :=
  (session_diagnostics_total "" ProcOutcome.timedOut (fun _ => Except.error ())).2.1 rfl

/-- A concrete exploration where the zero-probe run already finds five
events. -/
def fiveEventEnv : ExploreEnv :=
  { initialEvents := 5, hasScreenshot := true,
    suggestedSeq := ["click the load more button"], seqEvents := 12,
    recommendedActions := [], recEvents := fun _ => 0 }

/-- C7 counterexample: with five events from the zero-probe run (nonzero
but below twenty), explore_and_discover still performs a vision analysis
and a second probe run instead of returning at once. -/
theorem explore_stop_counterexample :
    fiveEventEnv.initialEvents > 0 ∧
    (exploreAndDiscover fiveEventEnv).visionCalls = 1 ∧
    (exploreAndDiscover fiveEventEnv).probeRuns = 2 := by
  decide

/-- C7 amended: the zero-probe result stops the exploration only when it
reaches twenty events; then it is recorded as the best pattern and the
function returns with exactly one probe run and no vision analysis.  A
nonzero result below twenty is still recorded as the best pattern, but
exploration continues. -/
theorem explore_stop_amended (env : ExploreEnv) (h : 20 ≤ env.initialEvents) :
    (exploreAndDiscover env).bestPattern = some ([], env.initialEvents) ∧
    (exploreAndDiscover env).eventsFound = env.initialEvents ∧
    (exploreAndDiscover env).probeRuns = 1 ∧
    (exploreAndDiscover env).visionCalls = 0 := by
  have h0 : env.initialEvents > 0 := by omega
  simp only [exploreAndDiscover]
  rw [if_pos ⟨h0, h⟩]
  simp [h0]

/-- A concrete exploration whose zero-probe run finds twenty-five events. -/
def richEnv : ExploreEnv :=
  { initialEvents := 25, hasScreenshot := false, suggestedSeq := [],
    seqEvents := 0, recommendedActions := [], recEvents := fun _ => 0 }

/-- Witness for the C7 amended theorem at the twenty-five event run. -/
theorem explore_stop_amended_witness :
    20 ≤ richEnv.initialEvents ∧
    (exploreAndDiscover richEnv).probeRuns = 1 ∧
    (exploreAndDiscover richEnv).visionCalls = 0 :=
  ⟨by decide, (explore_stop_amended richEnv (by decide)).2.2.1,
    (explore_stop_amended richEnv (by decide)).2.2.2⟩

/-- C8 counterexample: a single historical run of fifty events and a
current run of twenty-five, exactly fifty percent of the average, is not
flagged as a critical issue (the comparison is strict), only warned. -/
theorem historical_critical_counterexample :
    (analyzeHistoricalComparison 25 [50]).has_history = true ∧
    (analyzeHistoricalComparison 25 [50]).issues = [] ∧
    (analyzeHistoricalComparison 25 [50]).warnings = [warnLowTag] := by
  have hf : List.filter (fun n => n != 0) [50] = [50] := rfl
  simp only [analyzeHistoricalComparison, hf]
  norm_num

/-- C8 amended: whenever the nonzero historical counts are nonempty and the
current count is strictly below half their mean (stated over the naturals:
twice the current count times the number of counted runs is below their
sum), the historical comparison flags the critical issue. -/
theorem historical_critical_amended (current : Nat) (runs : List Nat)
    (hc : (runs.filter (fun n => n != 0)).isEmpty = false)
    (hlt : 2 * current * (runs.filter (fun n => n != 0)).length <
      (runs.filter (fun n => n != 0)).sum) :
    (analyzeHistoricalComparison current runs).has_history = true ∧
    (analyzeHistoricalComparison current runs).issues = [criticalLowTag] := by
  have hr : runs.isEmpty = false := by
    cases runs with
    | nil => simp at hc
    | cons a t => rfl
  have hlen : 0 < (runs.filter (fun n => n != 0)).length := by
    cases hcl : runs.filter (fun n => n != 0) with
    | nil => rw [hcl] at hc; simp at hc
    | cons a t => simp
  have hq : (current : ℚ) <
      (((runs.filter (fun n => n != 0)).sum : ℚ) /
        ((runs.filter (fun n => n != 0)).length : ℚ)) * (1 / 2) := by
    rw [div_mul_div_comm, mul_one, lt_div_iff₀ (by positivity)]
    have hcast : ((2 * current * (runs.filter (fun n => n != 0)).length : Nat) : ℚ) <
        (((runs.filter (fun n => n != 0)).sum : Nat) : ℚ) := Nat.cast_lt.mpr hlt
    push_cast at hcast
    push_cast
    nlinarith [hcast]
  simp only [analyzeHistoricalComparison, hr, hc, Bool.false_eq_true, if_false]
  rw [if_pos hq]
  exact ⟨rfl, rfl⟩

/-- Witness for the C8 amended theorem: historical average fifty, current
count five, flagged critical. -/
theorem historical_critical_amended_witness :
    (analyzeHistoricalComparison 5 [50]).has_history = true ∧
    (analyzeHistoricalComparison 5 [50]).issues = [criticalLowTag] :=
  historical_critical_amended 5 [50] (by decide) (by decide)

/-! Lemmas on the prefix, containment and lexicographic orders of
character lists, supporting the pagination-bump change theorem. -/

theorem startsWithL_nil (o : List Char) (h : startsWithL o [] = true) : o = [] := by
  cases o with
  | nil => rfl
  | cons c cs => simp [startsWithL] at h

/-- A job file carrying a numeric pagination limit. -/
def pagFS : FS := [("src/scrapers/foo.js", "maxClicks: 10")]

/-- A job file whose year rewrite re-creates its own trigger text: the
replacement closing quote joins the following text into a fresh match. -/
def wyFS : FS :=
  [("src/scrapers/bar.js", "'Wednesday, October 29, 2024'Wednesday, October 29, 2024'")]

/-- C1 counterexample: applying the pagination healing twice with no
intervening external change reports applied true both times; the limit
increment has no precondition, so re-application is not a no-op. -/
theorem apply_healing_idempotence_counterexample :
    (applyHealing 2025 pagFS "foo" IssueType.pagination_incomplete).2.applied = true ∧
    (applyHealing 2025 (applyHealing 2025 pagFS "foo" IssueType.pagination_incomplete).1 "foo"
        IssueType.pagination_incomplete).2.applied = true := by
  decide

/-- C1 amended: a second apply_healing call with no intervening external
change reports applied false for every issue type except
pagination_incomplete and wrong_year; those two can re-apply, witnessed by
a pagination limit bumped twice and a year rewrite whose replacement
re-creates its own trigger text. -/
theorem apply_healing_idempotence_amended :
    (∀ (cy : Nat) (fs : FS) (source : String) (issue : IssueType),
      issue ≠ IssueType.pagination_incomplete → issue ≠ IssueType.wrong_year →
      (applyHealing cy (applyHealing cy fs source issue).1 source issue).2.applied = false) ∧
    (applyHealing 2025 (applyHealing 2025 pagFS "foo" IssueType.pagination_incomplete).1 "foo"
        IssueType.pagination_incomplete).2.applied = true ∧
    (applyHealing 2025 (applyHealing 2025 wyFS "bar" IssueType.wrong_year).1 "bar"
        IssueType.wrong_year).2.applied = true := by
  refine ⟨?_, by decide, by decide⟩
  intro cy fs source issue hp hw
  cases issue <;>
    first
      | rfl
      | exact absurd rfl hp
      | exact absurd rfl hw

/-- Witness for the C1 amended theorem: a second empty_results healing
reports applied false. -/
theorem apply_healing_idempotence_amended_witness :
    (applyHealing 2025 (applyHealing 2025 [] "s" IssueType.empty_results).1 "s"
        IssueType.empty_results).2.applied = false :=
  apply_healing_idempotence_amended.1 2025 [] "s" IssueType.empty_results
    (by decide) (by decide)

/-- C3 counterexample: the year patch rewrites the job file in place and
the resulting file system holds no sibling backup, only the patched job
file itself. -/
theorem patch_backup_counterexample :
    (fixYearInInstruction 2025 wyFS "src/scrapers/bar.js").2 = true ∧
    fsLookup (fixYearInInstruction 2025 wyFS "src/scrapers/bar.js").1 "src/scrapers/bar.js" ≠
      fsLookup wyFS "src/scrapers/bar.js" ∧
    ((fixYearInInstruction 2025 wyFS "src/scrapers/bar.js").1).all
      (fun e => e.1 == "src/scrapers/bar.js") = true := by
  decide

theorem tryWriteFix_cases (fs : FS) (sp : String) (env : WriteFixEnv) :
    (tryWriteFix fs sp env).2 = false ∨
    ∃ current modified, fsLookup fs sp = some current ∧
      tryWriteFix fs sp env =
        (fsWrite
          (if (fsLookup fs (withSuffix sp ".js.backup_written_fix")).isSome then fs
           else fsWrite fs (withSuffix sp ".js.backup_written_fix") current)
          sp modified, true) := by
  unfold tryWriteFix
  repeat' (first | split | dsimp only)
  all_goals first
    | (left; rfl)
    | (right; exact ⟨_, _, by assumption, rfl⟩)

/-- C3 amended: only the written-fix path backs up before writing: when
_try_write_fix writes the job file, a sibling backup exists afterwards
(created from the prior contents unless one already existed).  The
auto-fix-rule patches overwrite their target in place: they create no file
at all, in particular no backup. -/
theorem patch_backup_amended :
    (∀ (fs : FS) (sp : String) (env : WriteFixEnv),
      (tryWriteFix fs sp env).2 = true →
      (fsLookup (tryWriteFix fs sp env).1 (withSuffix sp ".js.backup_written_fix")).isSome =
        true) ∧
    (∀ (cy : Nat) (fs : FS) (sp q : String),
      (fsLookup (fixYearInInstruction cy fs sp).1 q).isSome = (fsLookup fs q).isSome) ∧
    (∀ (fs : FS) (sp q : String),
      (fsLookup (increasePaginationClicks fs sp).1 q).isSome = (fsLookup fs q).isSome) ∧
    (∀ (fs : FS) (src q : String),
      (fsLookup (markTimesUnavailable fs src).1 q).isSome = (fsLookup fs q).isSome) := by
  refine ⟨?_, ?_, ?_, ?_⟩
  · intro fs sp env h
    rcases tryWriteFix_cases fs sp env with hcase | ⟨current, modified, hlook, hcase⟩
    · rw [hcase] at h
      exact absurd h (by simp)
    · rw [hcase]
      by_cases hbp : withSuffix sp ".js.backup_written_fix" = sp
      · rw [hbp]
        simp [fsLookup_fsWrite_self]
      · rw [fsLookup_fsWrite_ne _ _ _ _ hbp]
        by_cases hex : (fsLookup fs (withSuffix sp ".js.backup_written_fix")).isSome = true
        · rw [if_pos hex]
          exact hex
        · rw [if_neg hex]
          simp [fsLookup_fsWrite_self]
  · intro cy fs sp q
    rcases fixYear_cases cy fs sp with h | ⟨content, c2, hlook, _, h⟩
    · rw [h]
    · rw [h]
      exact fsWrite_isSome_iff fs sp c2 q (by rw [hlook]; rfl)
  · intro fs sp q
    rcases increasePagination_cases fs sp with h | ⟨content, c2, hlook, h⟩
    · rw [h]
    · rw [h]
      exact fsWrite_isSome_iff fs sp c2 q (by rw [hlook]; rfl)
  · intro fs src q
    rcases markTimes_cases fs src with h | ⟨content, c2, hlook, h⟩
    · rw [h]
    · rw [h]
      exact fsWrite_isSome_iff fs baselinePath c2 q (by rw [hlook]; rfl)

/-- A job file the written-fix environment below will patch. -/
def wfFS : FS := [("src/scrapers/z.js", "abc")]

/-- A written-fix environment whose completion suggests replacing a with
b. -/
def wfEnv : WriteFixEnv :=
  { importOk := true, apiKeyPresent := true, responseOk := true,
    responseText := "\x7b\x7d",
    jsonParse := fun _ => Except.ok (JsonVal.jobj
      [("can_fix", JsonVal.jbool true),
       ("search_replace", JsonVal.jarr [JsonVal.jobj
         [("search", JsonVal.jstr "a"), ("replace", JsonVal.jstr "b")]])]) }

/-- Witness for the C3 amended theorem: after a successful written fix the
sibling backup exists. -/
theorem patch_backup_amended_witness :
    (fsLookup (tryWriteFix wfFS "src/scrapers/z.js" wfEnv).1
      (withSuffix "src/scrapers/z.js" ".js.backup_written_fix")).isSome = true :=
  patch_backup_amended.1 wfFS "src/scrapers/z.js" wfEnv (by decide)

end NycScraper
